import Mathlib

/-!
Verification of the host-side chunked BLE transfer protocol
(`chunked_ble_protocol.py`, enhanced variant with 17-byte chunk headers and
13-byte typed ACKs, plus the `refactored_chunked_protocol.py` sender loop).

Shallow embedding conventions:
* bytes are `Nat` values (a frame is a `List Nat`); every byte produced by the
  code is `< 256` and the payload-byte hypotheses state this where needed;
* Python `struct.pack`/`to_bytes` little-endian packing becomes explicit
  base-256 digit lists; `struct.unpack` becomes digit recombination;
* timestamps (`time.time()`, float seconds) become `Int` values — the code
  only subtracts and compares them;
* the `asyncio.create_task(self._send_ack_message(t, n))` calls are modelled
  as emitting the pair `(t, n)` (ack type, chunk number); the other two ACK
  fields are echoes of mutable state read when the deferred task runs and are
  not modelled;
* exceptions cannot occur on the modelled paths (all list accesses are
  bounds-checked by the code first), so functions are total.
-/

namespace ChunkedBLE

/-! ## Protocol constants (`ChunkedBLEProtocol` class constants, lines 51-62) -/

def HEADER_SIZE : Nat := 17
def CHUNK_SIZE : Nat := 168
def MTU_SIZE : Nat := 185
def ACK_MESSAGE_SIZE : Nat := 13
def MAX_TOTAL_DATA_SIZE : Nat := 64 * 1024
def MAX_CHUNKS_PER_TRANSFER : Nat := 365
/-- `DEFAULT_CHUNK_TIMEOUT = 15.0` seconds, modelled as an integer. -/
def DEFAULT_CHUNK_TIMEOUT : Int := 15
def DEFAULT_MAX_RETRIES : Nat := 3

/-! ACK protocol commands (lines 21-25). -/

def ACK_CHUNK_RECEIVED : Nat := 0x01
def ACK_CHUNK_ERROR : Nat := 0x02
def ACK_TRANSFER_COMPLETE : Nat := 0x03
def ACK_TRANSFER_SUCCESS : Nat := 0x04
def ACK_TRANSFER_FAILED : Nat := 0x05

/-! ## CRC-32 (`_calculate_crc32`, line 864: `zlib.crc32(data) & 0xFFFFFFFF`)

zlib's CRC-32: IEEE 802.3 reflected polynomial `0xEDB88320`, initial value
`0xFFFFFFFF`, final complement.  `c >> 1` is `c / 2`, `c & 1` is `c % 2`. -/

def CRC_POLY : Nat := 0xEDB88320

def crcStep (c : Nat) : Nat :=
  if c % 2 = 1 then (c / 2) ^^^ CRC_POLY else c / 2

def crcByteStep (c b : Nat) : Nat := crcStep^[8] (c ^^^ b)

def crc32 (data : List Nat) : Nat :=
  (data.foldl crcByteStep 0xFFFFFFFF) ^^^ 0xFFFFFFFF

theorem crcStep_lt (c : Nat) (hc : c < 2 ^ 32) : crcStep c < 2 ^ 32 := by
  unfold crcStep
  have h2 : c / 2 < 2 ^ 32 := lt_of_le_of_lt (Nat.div_le_self c 2) hc
  split
  · exact Nat.xor_lt_two_pow h2 (by norm_num [CRC_POLY])
  · exact h2

theorem crcStep_iter_lt (n c : Nat) (hc : c < 2 ^ 32) : crcStep^[n] c < 2 ^ 32 := by
  induction n generalizing c with
  | zero => simpa using hc
  | succ n ih =>
      rw [Function.iterate_succ_apply]
      exact ih _ (crcStep_lt c hc)

theorem crcByteStep_lt (c b : Nat) (hc : c < 2 ^ 32) (hb : b < 256) :
    crcByteStep c b < 2 ^ 32 := by
  refine crcStep_iter_lt 8 _ (Nat.xor_lt_two_pow hc ?_)
  exact lt_of_lt_of_le hb (by norm_num)

theorem foldl_crcByteStep_lt (l : List Nat) (c : Nat) (hc : c < 2 ^ 32)
    (hl : ∀ b ∈ l, b < 256) : l.foldl crcByteStep c < 2 ^ 32 := by
  induction l generalizing c with
  | nil => simpa using hc
  | cons x xs ih =>
      simp only [List.foldl_cons]
      exact ih _ (crcByteStep_lt c x hc (hl x (by simp))) fun b hb => hl b (by simp [hb])

theorem crc32_lt (l : List Nat) (hl : ∀ b ∈ l, b < 256) : crc32 l < 2 ^ 32 := by
  unfold crc32
  exact Nat.xor_lt_two_pow (foldl_crcByteStep_lt l _ (by norm_num) hl) (by norm_num)

/-! ## Little-endian packing and unpacking

`struct.pack('<H', n)` / `n.to_bytes(k, 'little')` become digit lists;
`struct.unpack` / `int.from_bytes(..., 'little')` become `rd16`/`rd32`. -/

def le16 (n : Nat) : List Nat := [n % 256, n / 256 % 256]

def le32 (n : Nat) : List Nat :=
  [n % 256, n / 256 % 256, n / 2 ^ 16 % 256, n / 2 ^ 24 % 256]

def rd16 (b0 b1 : Nat) : Nat := b0 + 256 * b1

def rd32 (b0 b1 b2 b3 : Nat) : Nat := b0 + 256 * b1 + 2 ^ 16 * b2 + 2 ^ 24 * b3

theorem rd16_le16 (n : Nat) (h : n < 2 ^ 16) :
    rd16 (n % 256) (n / 256 % 256) = n := by
  unfold rd16; omega

theorem rd32_le32 (n : Nat) (h : n < 2 ^ 32) :
    rd32 (n % 256) (n / 256 % 256) (n / 2 ^ 16 % 256) (n / 2 ^ 24 % 256) = n := by
  unfold rd32; omega

/-- The 17-byte chunk header built by `send_data` lines 297-300:
`struct.pack('<HHB', chunk_num, total_chunks, data_size)` followed by
`chunk_crc32`, `global_crc32` and `total_data_size` as 4-byte little-endian
integers.  (`struct.pack` would raise for out-of-range values; all call
sites pass in-range values and the digits are reduced modulo 256.) -/
def packHeader (chunkNum totalChunks dataSize chunkCrc32 globalCrc32 totalDataSize : Nat) :
    List Nat :=
  le16 chunkNum ++ le16 totalChunks ++ [dataSize % 256] ++
    le32 chunkCrc32 ++ le32 globalCrc32 ++ le32 totalDataSize

/-- Byte `i` of a frame (`data[i]` in Python; frames are index-checked by
length before access). -/
def byteAt (l : List Nat) (i : Nat) : Nat := l.getD i 0

/-- `struct.unpack('<HHBIII', data[:17])` (line 511): recover the six header
fields from the first 17 bytes of a frame. -/
def unpackHeaderTuple (data : List Nat) : Nat × Nat × Nat × Nat × Nat × Nat :=
  (rd16 (byteAt data 0) (byteAt data 1),
   rd16 (byteAt data 2) (byteAt data 3),
   byteAt data 4,
   rd32 (byteAt data 5) (byteAt data 6) (byteAt data 7) (byteAt data 8),
   rd32 (byteAt data 9) (byteAt data 10) (byteAt data 11) (byteAt data 12),
   rd32 (byteAt data 13) (byteAt data 14) (byteAt data 15) (byteAt data 16))

theorem packHeader_length (a b c d e f : Nat) :
    (packHeader a b c d e f).length = HEADER_SIZE := by
  simp [packHeader, le16, le32, HEADER_SIZE]

theorem unpack_packHeader (a b c d e f : Nat) (payload : List Nat)
    (ha : a < 2 ^ 16) (hb : b < 2 ^ 16) (hc : c < 256)
    (hd : d < 2 ^ 32) (he : e < 2 ^ 32) (hf : f < 2 ^ 32) :
    unpackHeaderTuple (packHeader a b c d e f ++ payload) = (a, b, c, d, e, f) := by
  simp only [unpackHeaderTuple, byteAt, packHeader, le16, le32, List.cons_append,
    List.nil_append, List.getD_cons_zero, List.getD_cons_succ]
  rw [Nat.mod_eq_of_lt hc]
  rw [rd16_le16 a ha, rd16_le16 b hb, rd32_le32 d hd, rd32_le32 e he, rd32_le32 f hf]

theorem drop_packHeader (a b c d e f : Nat) (payload : List Nat) :
    (packHeader a b c d e f ++ payload).drop HEADER_SIZE = payload := by
  simp [packHeader, le16, le32, HEADER_SIZE]

theorem length_packHeader_append (a b c d e f : Nat) (payload : List Nat) :
    (packHeader a b c d e f ++ payload).length = HEADER_SIZE + payload.length := by
  simp only [HEADER_SIZE]
  simp [packHeader, le16, le32]
  omega

/-! ## Sender (`send_data`, lines 250-342) -/

/-- `total_chunks = (len(data) + self.CHUNK_SIZE - 1) // self.CHUNK_SIZE` (line 276). -/
def totalChunksOf (len : Nat) : Nat := (len + CHUNK_SIZE - 1) / CHUNK_SIZE

/-- The slice taken for chunk `i` (0-based loop index), lines 279-281:
`start_idx = i * CHUNK_SIZE`, `end_idx = min(start_idx + CHUNK_SIZE, len(data))`,
`chunk_data = data[start_idx:end_idx]`. -/
def chunkSlice (data : List Nat) (i : Nat) : List Nat :=
  (data.drop (i * CHUNK_SIZE)).take (min (i * CHUNK_SIZE + CHUNK_SIZE) data.length - i * CHUNK_SIZE)

/-- The list of chunk payloads produced by the loop at lines 278-282. -/
def sendChunks (data : List Nat) : List (List Nat) :=
  (List.range (totalChunksOf data.length)).map (chunkSlice data)

/-- The full frame written for chunk `i` (0-based), lines 295-303:
header with 1-based chunk number, `total_chunks`, chunk length, chunk CRC-32,
global CRC-32 of the whole payload and the total payload length, followed by
the chunk bytes. -/
def mkChunkPacket (data : List Nat) (i : Nat) : List Nat :=
  packHeader (i + 1) (totalChunksOf data.length) (chunkSlice data i).length
      (crc32 (chunkSlice data i)) (crc32 data) data.length
    ++ chunkSlice data i

/-- All frames written on the data characteristic by one `send_data` call
(the loop at lines 289-319 writes them in order). -/
def sendFrames (data : List Nat) : List (List Nat) :=
  (List.range (totalChunksOf data.length)).map (mkChunkPacket data)

/-- `_validate_data_size` (lines 857-862): only the total size is checked. -/
def validateDataSize (size : Nat) : Bool :=
  if size > MAX_TOTAL_DATA_SIZE then false else true

/-- `send_data` pre-flight: if `_validate_data_size` fails the call returns
`False` having written nothing (`none`); otherwise all frames are emitted. -/
def sendData (data : List Nat) : Option (List (List Nat)) :=
  if validateDataSize data.length then some (sendFrames data) else none

/-! ## Protocol object state

The mutable fields of `ChunkedBLEProtocol` touched by the modelled paths
(`__init__`, lines 85-120).  Defaults are the constructor's initial values. -/

structure ProtoState where
  receivedChunks : List (Option (List Nat)) := []
  expectedChunks : Nat := 0
  receivedChunkCount : Nat := 0
  completeDataEvent : Bool := false
  transferInProgress : Bool := false
  chunkTimeout : Int := DEFAULT_CHUNK_TIMEOUT
  lastChunkTime : Option Int := none
  expectedGlobalCrc32 : Option Nat := none
  sendingChunks : Bool := false
  chunksToSend : List (List Nat) := []
  ackReceivedEvent : Bool := false
  responseExpectedChunks : Option Nat := none
  responseExpectedGlobalCrc32 : Option Nat := none
  crcErrors : Nat := 0
  timeouts : Nat := 0
  totalDataSent : Nat := 0
  totalDataReceived : Nat := 0
  successfulTransfers : Nat := 0
  retransmissions : Nat := 0
  deriving Repr, DecidableEq

/-- The freshly constructed object. -/
def initialState : ProtoState := {}

/-- `_cancel_transfer` (lines 845-855): mark the transfer inactive, count a
timeout, clear the receive buffers and clear the completion event. -/
def cancelTransfer (st : ProtoState) : ProtoState :=
  { st with transferInProgress := false,
            timeouts := st.timeouts + 1,
            receivedChunks := [],
            expectedChunks := 0,
            receivedChunkCount := 0,
            completeDataEvent := false }

/-- `_check_chunk_timeout` (lines 829-843): `self._chunk_timeout <= 0`
disables the check; with no recorded chunk time there is no timeout yet;
otherwise the timeout fires when `now - last > chunk_timeout`. -/
def checkChunkTimeout (st : ProtoState) (now : Int) : Bool :=
  if st.chunkTimeout ≤ 0 then false
  else
    match st.lastChunkTime with
    | none => false
    | some t => if now - t > st.chunkTimeout then true else false

/-- `_reset_receive_state` (lines 966-977). -/
def resetReceiveState (st : ProtoState) : ProtoState :=
  { st with receivedChunks := [],
            expectedChunks := 0,
            receivedChunkCount := 0,
            completeDataEvent := false,
            transferInProgress := false,
            lastChunkTime := none,
            expectedGlobalCrc32 := none }

/-- `_validate_chunk_header` (lines 930-964). -/
def validateChunkHeader (chunkNum totalChunks dataSize totalPacketSize : Nat) : Bool :=
  if chunkNum < 1 || chunkNum > totalChunks then false
  else if totalChunks = 0 || totalChunks > MAX_CHUNKS_PER_TRANSFER then false
  else if dataSize = 0 || dataSize > CHUNK_SIZE then false
  else if totalPacketSize ≠ HEADER_SIZE + dataSize then false
  else true

/-! ## Receiver (`_process_received_chunk`, lines 495-724, receive role)

The embedding covers the instance acting as the Receiver, i.e. with
`self._sending_chunks == False` throughout; the response-reception branches
guarded by `_sending_chunks` (lines 543-558, 577-581, 594-599, 608-651,
713-719) are not modelled.  The function is split at the code's early-return
points into `processValidChunk` / `dupCheckStore` / `storeChunk` /
`tailCheck`, each annotated with the source lines it embeds. -/

/-- The observable effects of processing one inbound data frame:
the ACK messages scheduled on the control channel (ack type, chunk number)
in scheduling order, and the payload passed to the data-received callback
if it was invoked. -/
structure RecvOut where
  acks : List (Nat × Nat)
  delivered : Option (List Nat)
  deriving Repr, DecidableEq

/-- Slot `i` of the receive buffer (`self._received_chunks[i]`, guarded by an
index bound in the code). -/
def slotAt (l : List (Option (List Nat))) (i : Nat) : Option (List Nat) := l.getD i none

/-- Lines 702-712: refresh `_last_chunk_time` (`_update_chunk_timer`), then
the total-chunks consistency check: with an active expected count, a chunk
header whose `total_chunks` disagrees NAKs the chunk and cancels the
transfer.  `acks`/`delivered` are the effects accumulated so far. -/
def tailCheck (st : ProtoState) (now : Int) (chunkNum totalChunks : Nat)
    (acks : List (Nat × Nat)) (delivered : Option (List Nat)) : ProtoState × RecvOut :=
  let st := { st with lastChunkTime := some now }
  if 0 < st.expectedChunks ∧ totalChunks ≠ st.expectedChunks then
    (cancelTransfer st, ⟨acks ++ [(ACK_CHUNK_ERROR, chunkNum)], delivered⟩)
  else
    (st, ⟨acks, delivered⟩)

/-- Lines 652-700 (receive role): store the chunk when `chunk_num` is within
the slot array, ACK it, and on reaching the expected count assemble the
non-empty slots, send `TRANSFER_COMPLETE(0)`, validate the global CRC-32 and
either fail with `TRANSFER_FAILED(0)` + cancellation or succeed with
`TRANSFER_SUCCESS(0)` and deliver the assembled payload to the callback. -/
def storeChunk (st : ProtoState) (now : Int) (chunkNum totalChunks : Nat)
    (chunkData : List Nat) : ProtoState × RecvOut :=
  if chunkNum ≤ st.receivedChunks.length then
    let slots := st.receivedChunks.set (chunkNum - 1) (some chunkData)
    let st1 := { st with receivedChunks := slots,
                         receivedChunkCount := st.receivedChunkCount + 1 }
    if st1.receivedChunkCount = st1.expectedChunks then
      let completeData := (slots.filterMap id).flatten
      if some (crc32 completeData) ≠ st1.expectedGlobalCrc32 then
        (cancelTransfer st1,
         ⟨[(ACK_CHUNK_RECEIVED, chunkNum), (ACK_TRANSFER_COMPLETE, 0),
           (ACK_TRANSFER_FAILED, 0)], none⟩)
      else
        tailCheck
          { st1 with transferInProgress := false,
                     totalDataReceived := st1.totalDataReceived + completeData.length,
                     successfulTransfers := st1.successfulTransfers + 1 }
          now chunkNum totalChunks
          [(ACK_CHUNK_RECEIVED, chunkNum), (ACK_TRANSFER_COMPLETE, 0),
           (ACK_TRANSFER_SUCCESS, 0)]
          (some completeData)
    else
      tailCheck st1 now chunkNum totalChunks [(ACK_CHUNK_RECEIVED, chunkNum)] none
  else
    tailCheck st now chunkNum totalChunks [] none

/-- Lines 590-605 (receive role): a chunk whose slot is already filled is a
duplicate — re-ACK it and drop the body, leaving the state untouched. -/
def dupCheckStore (st : ProtoState) (now : Int) (chunkNum totalChunks : Nat)
    (chunkData : List Nat) : ProtoState × RecvOut :=
  let chunkIndex := chunkNum - 1
  if chunkIndex < st.receivedChunks.length ∧ (slotAt st.receivedChunks chunkIndex).isSome then
    (st, ⟨[(ACK_CHUNK_RECEIVED, chunkNum)], none⟩)
  else
    storeChunk st now chunkNum totalChunks chunkData

/-- Lines 559-588 (receive role): `chunk_num == 1` (re)initializes the
reception — `_expected_chunks` is set, the expected global CRC-32 is adopted
on first contact or compared otherwise, and the slot array is reallocated;
for later chunks only the global CRC-32 consistency is enforced.  A
mismatch NAKs the chunk and cancels the transfer. -/
def processValidChunk (st : ProtoState) (now : Int)
    (chunkNum totalChunks globalCrc32 : Nat) (chunkData : List Nat) : ProtoState × RecvOut :=
  if chunkNum = 1 then
    let st1 := { st with expectedChunks := totalChunks }
    match st.expectedGlobalCrc32 with
    | none =>
        dupCheckStore
          { st1 with expectedGlobalCrc32 := some globalCrc32,
                     receivedChunks := List.replicate totalChunks none,
                     receivedChunkCount := 0,
                     transferInProgress := true }
          now chunkNum totalChunks chunkData
    | some g =>
        if globalCrc32 ≠ g then
          (cancelTransfer st1, ⟨[(ACK_CHUNK_ERROR, chunkNum)], none⟩)
        else
          dupCheckStore
            { st1 with receivedChunks := List.replicate totalChunks none,
                       receivedChunkCount := 0,
                       transferInProgress := true }
            now chunkNum totalChunks chunkData
  else
    match st.expectedGlobalCrc32 with
    | none => dupCheckStore st now chunkNum totalChunks chunkData
    | some g =>
        if globalCrc32 ≠ g then
          (cancelTransfer st, ⟨[(ACK_CHUNK_ERROR, chunkNum)], none⟩)
        else
          dupCheckStore st now chunkNum totalChunks chunkData

/-- `_process_received_chunk` entry (lines 502-540, receive role): length
check (NAK with chunk number 0), header unpack, `_validate_chunk_header`,
the packet-size recheck and the per-chunk CRC-32 check, each NAKing with the
parsed chunk number and counting a `crc_errors` statistic. -/
def processReceivedChunk (st : ProtoState) (now : Int) (data : List Nat) :
    ProtoState × RecvOut :=
  if data.length < HEADER_SIZE then
    (st, ⟨[(ACK_CHUNK_ERROR, 0)], none⟩)
  else
    let chunkNum := rd16 (byteAt data 0) (byteAt data 1)
    let totalChunks := rd16 (byteAt data 2) (byteAt data 3)
    let dataSize := byteAt data 4
    let chunkCrc32 := rd32 (byteAt data 5) (byteAt data 6) (byteAt data 7) (byteAt data 8)
    let globalCrc32 := rd32 (byteAt data 9) (byteAt data 10) (byteAt data 11) (byteAt data 12)
    if ¬ validateChunkHeader chunkNum totalChunks dataSize data.length then
      ({ st with crcErrors := st.crcErrors + 1 }, ⟨[(ACK_CHUNK_ERROR, chunkNum)], none⟩)
    else if data.length ≠ HEADER_SIZE + dataSize then
      ({ st with crcErrors := st.crcErrors + 1 }, ⟨[(ACK_CHUNK_ERROR, chunkNum)], none⟩)
    else
      let chunkData := data.drop HEADER_SIZE
      if crc32 chunkData ≠ chunkCrc32 then
        ({ st with crcErrors := st.crcErrors + 1 }, ⟨[(ACK_CHUNK_ERROR, chunkNum)], none⟩)
      else
        processValidChunk st now chunkNum totalChunks globalCrc32 chunkData

/-- `_data_notification_handler` (lines 426-442): frames shorter than
`HEADER_SIZE` are dropped before `_process_received_chunk` runs — no ACK of
any kind is emitted for them. -/
def dataNotificationHandler (st : ProtoState) (now : Int) (data : List Nat) :
    ProtoState × RecvOut :=
  if data.length < HEADER_SIZE then (st, ⟨[], none⟩)
  else processReceivedChunk st now data

/-- Feed a list of inbound data frames through the notification handler,
collecting every payload handed to the data-received callback. -/
def runReceiver : ProtoState → Int → List (List Nat) → ProtoState × List (List Nat)
  | st, _, [] => (st, [])
  | st, now, f :: fs =>
      let r := dataNotificationHandler st now f
      let rest := runReceiver r.1 now fs
      (rest.1, r.2.delivered.toList ++ rest.2)

/-! ## ACK processing on the sender side
(`_process_received_ack`, lines 726-785, and `_retransmit_chunk`,
lines 868-890). -/

/-- Effects of processing one control-channel notification: frames written
on the data characteristic (retransmissions) and ACK messages sent back on
the control channel. -/
structure AckOut where
  dataWrites : List (List Nat)
  ctrlAcks : List (Nat × Nat)
  deriving Repr, DecidableEq

/-- `_retransmit_chunk` (lines 868-890): the retransmissions statistic is
incremented before anything else; `chunk_index = chunk_number - 1` is
bounds-checked (`idx < 0 or idx >= len(self._chunks_to_send)`) before the
outbound chunk list is accessed, so an out-of-range chunk number writes
nothing.  (With `_expected_global_crc32` still `None` the header build would
raise `AttributeError`, swallowed by the caller's `except:` — also no
write.) -/
def retransmitChunk (st : ProtoState) (chunkNumber : Nat) : ProtoState × List (List Nat) :=
  let st := { st with retransmissions := st.retransmissions + 1 }
  if chunkNumber = 0 ∨ st.chunksToSend.length < chunkNumber then
    (st, [])
  else
    match st.expectedGlobalCrc32 with
    | none => (st, [])
    | some g =>
        let chunkData := st.chunksToSend.getD (chunkNumber - 1) []
        (st,
         [packHeader chunkNumber st.chunksToSend.length chunkData.length
            (crc32 chunkData) g st.chunksToSend.flatten.length ++ chunkData])

/-- The `ack_type` dispatch of `_process_received_ack` (lines 756-782). -/
def dispatchAck (st : ProtoState) (ackType chunkNumber totalChunks globalCrc32 : Nat) :
    ProtoState × AckOut :=
  if ackType = ACK_CHUNK_RECEIVED then
    ({ st with ackReceivedEvent := true }, ⟨[], []⟩)
  else if ackType = ACK_CHUNK_ERROR then
    let r := retransmitChunk st chunkNumber
    (r.1, ⟨r.2, []⟩)
  else if ackType = ACK_TRANSFER_COMPLETE then
    let st1 := { st with responseExpectedChunks := some totalChunks,
                         responseExpectedGlobalCrc32 := some globalCrc32,
                         successfulTransfers := st.successfulTransfers + 1 }
    ({ resetReceiveState st1 with sendingChunks := true },
     ⟨[], [(ACK_TRANSFER_COMPLETE, 0)]⟩)
  else if ackType = ACK_TRANSFER_SUCCESS then
    ({ st with successfulTransfers := st.successfulTransfers + 1 }, ⟨[], []⟩)
  else if ackType = ACK_TRANSFER_FAILED then
    ({ st with crcErrors := st.crcErrors + 1 }, ⟨[], []⟩)
  else
    (st, ⟨[], []⟩)

/-- `_process_received_ack` (lines 726-785): length check, field parse, then
the global-CRC-32 consistency gate of lines 748-753 — a first ACK adopts the
echoed global CRC-32, a later ACK whose echo disagrees cancels the whole
transfer — before the `ack_type` dispatch. -/
def processReceivedAck (st : ProtoState) (data : List Nat) : ProtoState × AckOut :=
  if data.length < ACK_MESSAGE_SIZE then (st, ⟨[], []⟩)
  else
    let ackType := byteAt data 0
    let chunkNumber := rd32 (byteAt data 1) (byteAt data 2) (byteAt data 3) (byteAt data 4)
    let totalChunks := rd32 (byteAt data 5) (byteAt data 6) (byteAt data 7) (byteAt data 8)
    let globalCrc32 := rd32 (byteAt data 9) (byteAt data 10) (byteAt data 11) (byteAt data 12)
    match st.expectedGlobalCrc32 with
    | none =>
        dispatchAck { st with expectedGlobalCrc32 := some globalCrc32 }
          ackType chunkNumber totalChunks globalCrc32
    | some g =>
        if globalCrc32 ≠ g then (cancelTransfer st, ⟨[], []⟩)
        else dispatchAck st ackType chunkNumber totalChunks globalCrc32

/-! ## Refactored sender loop
(`refactored_chunked_protocol.py`, `_send_with_ack` lines 129-140 together
with `_on_control` lines 142-149, which stores the arriving ACK's
chunk number in `_last_ack` — regardless of its `ack_type` — and fires the
event).  Each element of `acks` is what happens during one attempt's wait:
`none` for an `asyncio.TimeoutError`, `some (ackType, chunkNumber)` for an
arriving ACK.  The result is `(success, number of frames written)`. -/

def sendWithAckGo (chunkNum : Nat) : Nat → List (Option (Nat × Nat)) → Bool × Nat
  | 0, _ => (false, 0)
  | retries + 1, acks =>
      match acks with
      | [] =>
          let p := sendWithAckGo chunkNum retries []
          (p.1, p.2 + 1)
      | none :: rest =>
          let p := sendWithAckGo chunkNum retries rest
          (p.1, p.2 + 1)
      | some (_, lastAck) :: rest =>
          if lastAck = chunkNum then (true, 1)
          else
            let p := sendWithAckGo chunkNum retries rest
            (p.1, p.2 + 1)

def sendWithAck (maxRetries chunkNum : Nat) (acks : List (Option (Nat × Nat))) : Bool × Nat :=
  sendWithAckGo chunkNum maxRetries acks

/-! ## Claim C1: sender–receiver round trip

Intermediate receiver states for the induction: after the first `j` sender
frames have been processed, the slot array holds exactly the first `j`
chunks. -/

/-- Slot array holding the first `j` of the given chunks. -/
def midSlots (chunks : List (List Nat)) (j : Nat) : List (Option (List Nat)) :=
  (List.range chunks.length).map (fun k => if k < j then some (chunks.getD k []) else none)

/-- Receiver state after storing the first `j` sender chunks of `data`,
with the given last-activity timestamp. -/
def midRecvState (data : List Nat) (j : Nat) (lt : Option Int) : ProtoState :=
  { receivedChunks := midSlots (sendChunks data) j
    expectedChunks := totalChunksOf data.length
    receivedChunkCount := j
    transferInProgress := true
    expectedGlobalCrc32 := some (crc32 data)
    lastChunkTime := lt }

/-- Receiver state after a completed transfer of `data`. -/
def finalRecvState (data : List Nat) : ProtoState :=
  { midRecvState data (totalChunksOf data.length) (some 0) with
      transferInProgress := false
      totalDataReceived := data.length
      successfulTransfers := 1 }

/-! ## Helper lemmas -/

theorem validateChunkHeader_eq_true {a b c d : Nat} :
    validateChunkHeader a b c d = true ↔
      1 ≤ a ∧ a ≤ b ∧ 0 < b ∧ b ≤ MAX_CHUNKS_PER_TRANSFER ∧ 0 < c ∧ c ≤ CHUNK_SIZE ∧
        d = HEADER_SIZE + c := by
  unfold validateChunkHeader
  split_ifs <;> simp_all <;> omega

theorem getD_map_range {α : Type} (f : Nat → α) (n i : Nat) (d : α) (h : i < n) :
    ((List.range n).map f).getD i d = f i := by
  rw [List.getD_eq_getElem _ _ (by simpa using h)]
  simp [h]

theorem chunkSlice_eq (data : List Nat) (i : Nat) :
    chunkSlice data i = (data.drop (i * CHUNK_SIZE)).take CHUNK_SIZE := by
  unfold chunkSlice
  rw [List.take_eq_take]
  simp only [List.length_drop]
  omega

theorem chunkSlice_length (data : List Nat) (i : Nat) :
    (chunkSlice data i).length = min CHUNK_SIZE (data.length - i * CHUNK_SIZE) := by
  rw [chunkSlice_eq]
  simp

theorem totalChunksOf_le (len : Nat) (h : len ≤ MAX_CHUNKS_PER_TRANSFER * CHUNK_SIZE) :
    totalChunksOf len ≤ MAX_CHUNKS_PER_TRANSFER := by
  unfold totalChunksOf CHUNK_SIZE at *
  unfold MAX_CHUNKS_PER_TRANSFER at *
  omega

theorem lt_of_lt_totalChunksOf {len i : Nat} (h : i < totalChunksOf len) :
    i * CHUNK_SIZE < len := by
  unfold totalChunksOf CHUNK_SIZE at *
  omega

theorem chunkSlice_length_pos (data : List Nat) (i : Nat)
    (h : i < totalChunksOf data.length) : 0 < (chunkSlice data i).length := by
  rw [chunkSlice_length]
  have := lt_of_lt_totalChunksOf h
  unfold CHUNK_SIZE at *
  omega

theorem chunkSlice_length_le (data : List Nat) (i : Nat) :
    (chunkSlice data i).length ≤ CHUNK_SIZE := by
  rw [chunkSlice_length]; omega

theorem chunkSlice_mem (data : List Nat) (i : Nat) {b : Nat} (h : b ∈ chunkSlice data i) :
    b ∈ data := by
  rw [chunkSlice_eq] at h
  exact List.mem_of_mem_drop (List.mem_of_mem_take h)

theorem flatten_take_chunks :
    ∀ (k : Nat) (l : List Nat), totalChunksOf l.length = k →
      ((List.range k).map (fun i => (l.drop (i * CHUNK_SIZE)).take CHUNK_SIZE)).flatten = l := by
  intro k
  induction k with
  | zero =>
      intro l hl
      have : l.length = 0 := by unfold totalChunksOf CHUNK_SIZE at hl; omega
      simp [List.length_eq_zero.mp this]
  | succ k ih =>
      intro l hl
      rw [List.range_succ_eq_map, List.map_cons, List.map_map, List.flatten_cons]
      have hmap : (List.range k).map ((fun i => (l.drop (i * CHUNK_SIZE)).take CHUNK_SIZE) ∘ Nat.succ)
          = (List.range k).map (fun i => ((l.drop CHUNK_SIZE).drop (i * CHUNK_SIZE)).take CHUNK_SIZE) := by
        apply List.map_congr_left
        intro a _
        simp only [Function.comp_apply]
        rw [List.drop_drop, Nat.succ_mul, Nat.add_comm]
      rw [hmap, ih (l.drop CHUNK_SIZE) (by
        simp only [List.length_drop]
        unfold totalChunksOf CHUNK_SIZE at *
        omega)]
      simp only [Nat.zero_mul, List.drop_zero]
      exact List.take_append_drop CHUNK_SIZE l

theorem sendChunks_length (data : List Nat) :
    (sendChunks data).length = totalChunksOf data.length := by
  simp [sendChunks]

theorem sendChunks_getD (data : List Nat) (i : Nat) (h : i < totalChunksOf data.length) :
    (sendChunks data).getD i [] = chunkSlice data i := by
  unfold sendChunks
  exact getD_map_range _ _ _ _ h

theorem sendChunks_flatten (data : List Nat) : (sendChunks data).flatten = data := by
  unfold sendChunks
  have hcongr : (List.range (totalChunksOf data.length)).map (chunkSlice data)
      = (List.range (totalChunksOf data.length)).map
          (fun i => (data.drop (i * CHUNK_SIZE)).take CHUNK_SIZE) := by
    apply List.map_congr_left
    intro a _
    exact chunkSlice_eq data a
  rw [hcongr, flatten_take_chunks _ data rfl]

theorem sendFrames_length (data : List Nat) :
    (sendFrames data).length = totalChunksOf data.length := by
  simp [sendFrames]

theorem sendFrames_getD (data : List Nat) (i : Nat) (h : i < totalChunksOf data.length) :
    (sendFrames data).getD i [] = mkChunkPacket data i := by
  unfold sendFrames
  exact getD_map_range _ _ _ _ h

theorem mkChunkPacket_length (data : List Nat) (i : Nat) :
    (mkChunkPacket data i).length = HEADER_SIZE + (chunkSlice data i).length := by
  unfold mkChunkPacket
  exact length_packHeader_append _ _ _ _ _ _ _

/-! ## Claim C7: send pre-flight validation -/

/-- C7 counterexample: a 65536-byte payload passes the only pre-flight check
(`_validate_data_size`) and is chunked into 391 frames, although 391 exceeds
`MAX_CHUNKS_PER_TRANSFER = 365` — there is no chunk-count pre-flight check,
contradicting the claim that such a send fails synchronously. -/
theorem preflight_chunk_count_counterexample :
    validateDataSize (List.replicate 65536 (0 : Nat)).length = true
    ∧ sendData (List.replicate 65536 (0 : Nat)) = some (sendFrames (List.replicate 65536 (0 : Nat)))
    ∧ totalChunksOf (List.replicate 65536 (0 : Nat)).length = 391
    ∧ MAX_CHUNKS_PER_TRANSFER < totalChunksOf (List.replicate 65536 (0 : Nat)).length := by
  refine ⟨?_, ?_, ?_, ?_⟩
  · rw [List.length_replicate]
    decide
  · unfold sendData
    rw [List.length_replicate]
    norm_num [validateDataSize, MAX_TOTAL_DATA_SIZE]
  · rw [List.length_replicate]
    decide
  · rw [List.length_replicate]
    decide

/-- C7 amended: a payload longer than `MAX_TOTAL_DATA_SIZE` is rejected
pre-flight with nothing written to the link; any payload within the size
limit is sent in full — the chunk count is never checked by the sender, so
payloads whose chunk count exceeds `MAX_CHUNKS_PER_TRANSFER` are still
emitted (and only rejected by the receiving side's header validation). -/
theorem preflight_size_check_only (data : List Nat) :
    (MAX_TOTAL_DATA_SIZE < data.length → sendData data = none)
    ∧ (data.length ≤ MAX_TOTAL_DATA_SIZE → sendData data = some (sendFrames data)) := by
  constructor <;> intro h <;> simp [sendData, validateDataSize] <;> omega

/-- Witness for `preflight_size_check_only` at a concrete oversized payload. -/
theorem preflight_size_check_only_witness :
    sendData (List.replicate 65537 (0 : Nat)) = none := by
  apply (preflight_size_check_only (List.replicate 65537 (0 : Nat))).1
  rw [List.length_replicate]
  decide

/-! ## Claim C9: chunk timeout -/

/-- C9 counterexample: the cancellation is not automatic and waiters are not
notified.  (a) In a state with an active receive transfer whose last chunk
activity was at time 0 (default 15 s timeout), the timeout condition holds
at time 1000, yet processing an inbound data frame at that time leaves the
transfer in progress with no timeout counted — the inbound-frame path never
consults `_check_chunk_timeout`; the check runs only inside `send_data`'s
chunk loop, so a receive transfer with no concurrent send is never
cancelled by inactivity.  (b) `_cancel_transfer` *clears* the completion
event (here: from set to unset) — clearing an event wakes no waiter, so
`receive_data` callers exit only via their own timeout. -/
theorem chunk_timeout_not_driven_counterexample :
    checkChunkTimeout { transferInProgress := true, lastChunkTime := some 0 } 1000 = true
    ∧ (dataNotificationHandler { transferInProgress := true, lastChunkTime := some 0 } 1000
        [1, 2, 3]).1.transferInProgress = true
    ∧ (dataNotificationHandler { transferInProgress := true, lastChunkTime := some 0 } 1000
        [1, 2, 3]).1.timeouts = 0
    ∧ (cancelTransfer { transferInProgress := true, completeDataEvent := true }).completeDataEvent
        = false := by
  decide

/-- C9 amended: `_check_chunk_timeout` is disabled for a configured timeout
`≤ 0`; with a recorded last-activity time it fires exactly when the elapsed
time exceeds the timeout — but it is only invoked from `send_data`'s chunk
loop (lines 289-293), never from the inbound-frame path, so an idle receive
transfer with no concurrent send is never cancelled.  When the send loop
does observe the timeout, `_cancel_transfer` deactivates the transfer,
clears the slot buffers and counters, counts a timeout, and clears — does
not set — the completion event, so waiters are not woken, and no payload
can be assembled from the cancelled transfer. -/
theorem chunk_timeout_behavior (st : ProtoState) (now : Int) :
    (st.chunkTimeout ≤ 0 → checkChunkTimeout st now = false)
    ∧ (∀ t, 0 < st.chunkTimeout → st.lastChunkTime = some t →
        st.chunkTimeout < now - t → checkChunkTimeout st now = true)
    ∧ (cancelTransfer st).transferInProgress = false
    ∧ (cancelTransfer st).receivedChunks = []
    ∧ (cancelTransfer st).receivedChunkCount = 0
    ∧ (cancelTransfer st).expectedChunks = 0
    ∧ (cancelTransfer st).completeDataEvent = false
    ∧ (cancelTransfer st).timeouts = st.timeouts + 1 := by
  refine ⟨?_, ?_, rfl, rfl, rfl, rfl, rfl, rfl⟩
  · intro h
    simp [checkChunkTimeout, h]
  · intro t h1 h2 h3
    simp [checkChunkTimeout, h2, not_le.mpr h1, h3]

/-- Witness for `chunk_timeout_behavior`: with the default 15 s timeout and
last activity at time 0, the check fires at time 16. -/
theorem chunk_timeout_behavior_witness :
    checkChunkTimeout { initialState with lastChunkTime := some 0 } 16 = true := by
  have h := (chunk_timeout_behavior { initialState with lastChunkTime := some 0 } 16).2.1
  exact h 0 (by decide) rfl (by decide)

/-! ## Claim C10: out-of-range CHUNK_ERROR retransmission request -/

/-- C10: processing a `CHUNK_ERROR` ACK whose chunk number is 0 or beyond
the buffered outbound chunk list increments the retransmissions statistic
but writes nothing to either channel and changes nothing else (the bounds
check in `_retransmit_chunk` precedes the list access, so no exception is
possible). -/
theorem oob_chunk_error_retransmit_stat (st : ProtoState) (data : List Nat)
    (hlen : ACK_MESSAGE_SIZE ≤ data.length)
    (htype : byteAt data 0 = ACK_CHUNK_ERROR)
    (hG : st.expectedGlobalCrc32
        = some (rd32 (byteAt data 9) (byteAt data 10) (byteAt data 11) (byteAt data 12)))
    (hoob : rd32 (byteAt data 1) (byteAt data 2) (byteAt data 3) (byteAt data 4) = 0
        ∨ st.chunksToSend.length
            < rd32 (byteAt data 1) (byteAt data 2) (byteAt data 3) (byteAt data 4)) :
    processReceivedAck st data
      = ({ st with retransmissions := st.retransmissions + 1 }, ⟨[], []⟩) := by
  have h13 : ¬ data.length < ACK_MESSAGE_SIZE := by omega
  simp only [processReceivedAck, h13, if_false, hG]
  rw [if_neg (by simp)]
  simp only [dispatchAck, htype]
  rw [if_neg (by decide)]
  simp only [if_true, reduceIte]
  simp only [retransmitChunk]
  rw [if_pos hoob]
  rw [hG]

/-- Witness for `oob_chunk_error_retransmit_stat`: one buffered chunk, a
`CHUNK_ERROR` naming chunk 5. -/
theorem oob_chunk_error_retransmit_stat_witness :
    processReceivedAck { expectedGlobalCrc32 := some 5, chunksToSend := [[1]] }
        ([2] ++ le32 5 ++ le32 0 ++ le32 5)
      = ({ expectedGlobalCrc32 := some 5, chunksToSend := [[1]], retransmissions := 1 }, ⟨[], []⟩) := by
  have h := oob_chunk_error_retransmit_stat
    { expectedGlobalCrc32 := some 5, chunksToSend := [[1]] }
    ([2] ++ le32 5 ++ le32 0 ++ le32 5) (by decide) (by decide) (by decide) (by decide)
  exact h

/-! ## Claim C3: per-chunk ACK waiting and retry bound -/

/-- C3 counterexample: in the refactored sender (the only variant that waits
for per-chunk ACKs), a `CHUNK_ERROR` ACK naming the outstanding chunk makes
`_send_with_ack` report success after a single transmission — it does not
re-emit the frame and can never reach the claimed `AckExhausted` outcome on
`CHUNK_ERROR`s, because only `_last_ack` (the chunk number) is consulted,
never the ACK type. -/
theorem sender_chunk_error_counterexample :
    sendWithAck DEFAULT_MAX_RETRIES 1 [some (ACK_CHUNK_ERROR, 1)] = (true, 1) := by
  decide

theorem sendWithAckGo_no_match (chunkNum : Nat) :
    ∀ (m : Nat) (acks : List (Option (Nat × Nat))),
      (∀ a ∈ acks, Option.map Prod.snd a ≠ some chunkNum) →
      sendWithAckGo chunkNum m acks = (false, m) := by
  intro m
  induction m with
  | zero => intro acks _; rfl
  | succ m ih =>
      intro acks hacks
      match acks with
      | [] => simp [sendWithAckGo, ih [] (by simp)]
      | none :: rest =>
          simp [sendWithAckGo, ih rest (fun a ha => hacks a (by simp [ha]))]
      | some (t, n) :: rest =>
          have hne : n ≠ chunkNum := by
            have := hacks (some (t, n)) (by simp)
            simpa using this
          simp [sendWithAckGo, hne, ih rest (fun a ha => hacks a (by simp [ha]))]

theorem sendWithAckGo_first_match (chunkNum : Nat) :
    ∀ (l : List (Option (Nat × Nat))) (m t : Nat) (r : List (Option (Nat × Nat))),
      (∀ a ∈ l, Option.map Prod.snd a ≠ some chunkNum) →
      l.length < m →
      sendWithAckGo chunkNum m (l ++ some (t, chunkNum) :: r) = (true, l.length + 1) := by
  intro l
  induction l with
  | nil =>
      intro m t r _ hm
      match m, hm with
      | m + 1, _ => simp [sendWithAckGo]
  | cons a l ih =>
      intro m t r hl hm
      match m, hm with
      | m + 1, hm =>
          have hl' : ∀ a ∈ l, Option.map Prod.snd a ≠ some chunkNum :=
            fun x hx => hl x (by simp [hx])
          have hrec := ih m t r hl' (by simpa using Nat.lt_of_succ_lt_succ hm)
          match a with
          | none => simp [sendWithAckGo, hrec]
          | some (t', n) =>
              have hne : n ≠ chunkNum := by
                have := hl (some (t', n)) (by simp)
                simpa using this
              simp [sendWithAckGo, hne, hrec]

/-- C3 amended: the refactored `_send_with_ack` transmits the frame and waits
up to the ACK timeout; an attempt whose wait times out, or whose arriving
ACK names a different chunk, causes the same frame to be re-transmitted,
with at most `max_retries = 3` total attempts; after 3 attempts without any
ACK naming the chunk the send fails (returns `False`).  Any ACK naming the
outstanding chunk — `CHUNK_RECEIVED` or `CHUNK_ERROR` alike — is accepted
as success.  (The enhanced variant's `send_data` loop never waits for
per-chunk ACKs at all, and its `CHUNK_ERROR`-driven retransmission is not
bounded by a retry counter.) -/
theorem send_with_ack_retry_bound (chunkNum : Nat) (acks : List (Option (Nat × Nat))) :
    ((∀ a ∈ acks, Option.map Prod.snd a ≠ some chunkNum) →
       sendWithAck DEFAULT_MAX_RETRIES chunkNum acks = (false, DEFAULT_MAX_RETRIES))
    ∧ (∀ t l r, acks = l ++ some (t, chunkNum) :: r →
       (∀ a ∈ l, Option.map Prod.snd a ≠ some chunkNum) →
       l.length < DEFAULT_MAX_RETRIES →
       sendWithAck DEFAULT_MAX_RETRIES chunkNum acks = (true, l.length + 1)) := by
  constructor
  · intro h
    exact sendWithAckGo_no_match chunkNum DEFAULT_MAX_RETRIES acks h
  · intro t l r hacks hl hlen
    rw [hacks]
    exact sendWithAckGo_first_match chunkNum l DEFAULT_MAX_RETRIES t r hl hlen

/-- Witness for `send_with_ack_retry_bound`: one stray ACK naming chunk 5
followed by a matching ACK for chunk 1 — the stray ACK consumes an attempt
(the frame is written twice) and the matching one succeeds. -/
theorem send_with_ack_retry_bound_witness :
    sendWithAck DEFAULT_MAX_RETRIES 1 [some (1, 5), some (1, 1)] = (true, 2) := by
  have h := (send_with_ack_retry_bound 1 [some (1, 5), some (1, 1)]).2 1
    [some (1, 5)] [] rfl (by decide) (by decide)
  exact h

/-! ## Claim C6: handling of stray ACKs on the sender side -/

/-- C6 counterexample: `_process_received_ack` does not drop stray ACKs
silently.  (a) A `CHUNK_RECEIVED` whose echoed `global_crc32` (9) differs
from the expected one (5) cancels the whole transfer (the timeouts counter
is bumped and `transfer_in_progress` is cleared) instead of being ignored.
(b) A `CHUNK_RECEIVED` with a matching echo but an arbitrary chunk number
(7) sets the ACK event — the handler never compares the chunk number with
the outstanding chunk. -/
theorem stray_ack_counterexample :
    ((processReceivedAck { expectedGlobalCrc32 := some 5, transferInProgress := true }
        ([1] ++ le32 7 ++ le32 0 ++ le32 9)).1.transferInProgress = false
      ∧ (processReceivedAck { expectedGlobalCrc32 := some 5, transferInProgress := true }
          ([1] ++ le32 7 ++ le32 0 ++ le32 9)).1.timeouts = 1
      ∧ ({ expectedGlobalCrc32 := some 5, transferInProgress := true } : ProtoState).timeouts = 0)
    ∧ ((processReceivedAck { expectedGlobalCrc32 := some 5 }
          ([1] ++ le32 7 ++ le32 0 ++ le32 5)).1.ackReceivedEvent = true
      ∧ ({ expectedGlobalCrc32 := some 5 } : ProtoState).ackReceivedEvent = false) := by
  decide

theorem retransmitChunk_fst_retransmissions (st : ProtoState) (n : Nat) :
    (retransmitChunk st n).1.retransmissions = st.retransmissions + 1 := by
  simp only [retransmitChunk]
  split
  · rfl
  · split <;> rfl

/-- C6 amended: with an expected global CRC-32 in place, an inbound ACK whose
echoed `global_crc32` disagrees cancels the transfer (it is not dropped
silently); an ACK with a matching echo is dispatched on its type alone —
`CHUNK_RECEIVED` sets the ACK event whatever chunk number it names, and
`CHUNK_ERROR` triggers a retransmission of whatever chunk it names.  The
chunk number is never compared against the outstanding chunk. -/
theorem ack_handler_gate_and_dispatch (st : ProtoState) (data : List Nat) (g : Nat)
    (hlen : ACK_MESSAGE_SIZE ≤ data.length)
    (hG : st.expectedGlobalCrc32 = some g) :
    (rd32 (byteAt data 9) (byteAt data 10) (byteAt data 11) (byteAt data 12) ≠ g →
       processReceivedAck st data = (cancelTransfer st, ⟨[], []⟩))
    ∧ (rd32 (byteAt data 9) (byteAt data 10) (byteAt data 11) (byteAt data 12) = g →
       byteAt data 0 = ACK_CHUNK_RECEIVED →
       processReceivedAck st data = ({ st with ackReceivedEvent := true }, ⟨[], []⟩))
    ∧ (rd32 (byteAt data 9) (byteAt data 10) (byteAt data 11) (byteAt data 12) = g →
       byteAt data 0 = ACK_CHUNK_ERROR →
       (processReceivedAck st data).1.retransmissions = st.retransmissions + 1) := by
  have h13 : ¬ data.length < ACK_MESSAGE_SIZE := by omega
  refine ⟨?_, ?_, ?_⟩
  · intro hne
    simp only [processReceivedAck, h13, if_false, hG]
    rw [if_pos hne]
  · intro heq htype
    simp only [processReceivedAck, h13, if_false, hG]
    rw [if_neg (by simp [heq])]
    simp only [dispatchAck, htype, reduceIte]
    rw [hG]
  · intro heq htype
    simp only [processReceivedAck, h13, if_false, hG]
    rw [if_neg (by simp [heq])]
    simp only [dispatchAck, htype]
    rw [if_neg (by decide)]
    simp only [if_true, reduceIte]
    exact retransmitChunk_fst_retransmissions st _

/-- Witness for `ack_handler_gate_and_dispatch`: a `CHUNK_RECEIVED` naming
chunk 7 while the expected global CRC-32 is 5 and the echo matches. -/
theorem ack_handler_gate_and_dispatch_witness :
    processReceivedAck { expectedGlobalCrc32 := some 5, transferInProgress := true }
        ([1] ++ le32 7 ++ le32 0 ++ le32 5)
      = ({ expectedGlobalCrc32 := some 5, transferInProgress := true,
           ackReceivedEvent := true }, ⟨[], []⟩) := by
  have h := (ack_handler_gate_and_dispatch
    { expectedGlobalCrc32 := some 5, transferInProgress := true }
    ([1] ++ le32 7 ++ le32 0 ++ le32 5) 5 (by decide) rfl).2.1 (by decide) (by decide)
  exact h

/-! ## Claim C8: inbound frame decode and CRC errors -/

/-- C8 counterexample: a 3-byte inbound frame is dropped by
`_data_notification_handler` with no ACK at all — not the claimed
`CHUNK_ERROR` with chunk number 0 — and a decodable frame whose header is
out of bounds (total chunks 400 > 365) is NAKed with the parsed chunk
number 2, not 0. -/
theorem decode_error_ack_counterexample :
    (dataNotificationHandler initialState 0 [1, 2, 3]).2.acks = []
    ∧ (ACK_CHUNK_ERROR, 0) ∉ (dataNotificationHandler initialState 0 [1, 2, 3]).2.acks
    ∧ (processReceivedChunk initialState 0
        (packHeader 2 400 1 (crc32 [9]) 7 5 ++ [9])).2.acks = [(ACK_CHUNK_ERROR, 2)] := by
  decide

/-- C8 amended: an inbound frame shorter than `HEADER_SIZE` is dropped by
the data notification handler without emitting anything; a frame that
parses but fails `_validate_chunk_header` (field bounds or packet size) is
NAKed with `CHUNK_ERROR(chunk_num)` — the parsed chunk number, not 0 — and
bumps `crc_errors`; a frame whose payload CRC-32 disagrees with the header's
`chunk_crc32` equally bumps `crc_errors`, is NAKed with
`CHUNK_ERROR(chunk_num)` and is dropped without storing anything. -/
theorem frame_decode_error_handling (st : ProtoState) (now : Int) (data : List Nat) :
    (data.length < HEADER_SIZE → dataNotificationHandler st now data = (st, ⟨[], none⟩))
    ∧ (HEADER_SIZE ≤ data.length →
        validateChunkHeader (rd16 (byteAt data 0) (byteAt data 1))
            (rd16 (byteAt data 2) (byteAt data 3)) (byteAt data 4) data.length = false →
        processReceivedChunk st now data
          = ({ st with crcErrors := st.crcErrors + 1 },
             ⟨[(ACK_CHUNK_ERROR, rd16 (byteAt data 0) (byteAt data 1))], none⟩))
    ∧ (HEADER_SIZE ≤ data.length →
        validateChunkHeader (rd16 (byteAt data 0) (byteAt data 1))
            (rd16 (byteAt data 2) (byteAt data 3)) (byteAt data 4) data.length = true →
        crc32 (data.drop HEADER_SIZE)
            ≠ rd32 (byteAt data 5) (byteAt data 6) (byteAt data 7) (byteAt data 8) →
        processReceivedChunk st now data
          = ({ st with crcErrors := st.crcErrors + 1 },
             ⟨[(ACK_CHUNK_ERROR, rd16 (byteAt data 0) (byteAt data 1))], none⟩)) := by
  refine ⟨?_, ?_, ?_⟩
  · intro h
    simp [dataNotificationHandler, h]
  · intro hge hval
    have hlt : ¬ data.length < HEADER_SIZE := by omega
    simp only [processReceivedChunk, hlt, if_false]
    rw [if_pos (by simp [hval])]
  · intro hge hval hcrc
    have hlt : ¬ data.length < HEADER_SIZE := by omega
    have hsize := (validateChunkHeader_eq_true.mp hval).2.2.2.2.2.2
    simp only [processReceivedChunk, hlt, if_false]
    rw [if_neg (by simp [hval]), if_neg (by omega), if_pos hcrc]

/-- Witness for `frame_decode_error_handling`: a well-formed frame whose
header's `chunk_crc32` (999) does not match the payload.  The claimed
`crc32(payload) = 999` would force `crc32 [5] = 999`, which is false. -/
theorem frame_decode_error_handling_witness :
    processReceivedChunk initialState 0 (packHeader 1 1 1 999 0 1 ++ [5])
      = ({ initialState with crcErrors := initialState.crcErrors + 1 },
         ⟨[(ACK_CHUNK_ERROR,
            rd16 (byteAt (packHeader 1 1 1 999 0 1 ++ [5]) 0)
              (byteAt (packHeader 1 1 1 999 0 1 ++ [5]) 1))], none⟩) :=
  (frame_decode_error_handling initialState 0 _).2.2 (by decide) (by decide) (by decide)

/-! ## Claim C4: duplicate chunks -/

/-- C4 counterexample: a duplicate of chunk 1 is *not* idempotent.  With a
3-chunk transfer holding chunks 1 and 2 (count 2), a re-delivery of chunk 1
re-initializes the reception: the slot array is reallocated (chunk 2's slot
is wiped), the received count drops to 1, and chunk 1 is stored afresh — the
slot array and count do change, contradicting the claim. -/
theorem duplicate_chunk_one_counterexample :
    (processReceivedChunk
        { receivedChunks := [some [10], some [20], none], expectedChunks := 3,
          receivedChunkCount := 2, transferInProgress := true,
          expectedGlobalCrc32 := some (crc32 [10, 20, 30]) }
        0 (packHeader 1 3 1 (crc32 [10]) (crc32 [10, 20, 30]) 3 ++ [10])).1.receivedChunks
      = [some [10], none, none]
    ∧ (processReceivedChunk
        { receivedChunks := [some [10], some [20], none], expectedChunks := 3,
          receivedChunkCount := 2, transferInProgress := true,
          expectedGlobalCrc32 := some (crc32 [10, 20, 30]) }
        0 (packHeader 1 3 1 (crc32 [10]) (crc32 [10, 20, 30]) 3 ++ [10])).1.receivedChunkCount
      = 1
    ∧ ([some [10], none, none] : List (Option (List Nat))) ≠ [some [10], some [20], none]
    ∧ (1 : Nat) ≠ 2 := by
  decide

/-- C4 amended: for chunks other than chunk 1 the duplicate handling is as
claimed — an already-filled slot triggers only a repeated
`CHUNK_RECEIVED(chunk_num)` ACK and the state (slot array, count, and all
other fields) is completely unchanged.  A duplicate of chunk 1, however,
re-initializes the reception (see the counterexample). -/
theorem duplicate_chunk_idempotent (st : ProtoState) (now : Int) (data : List Nat)
    (hval : validateChunkHeader (rd16 (byteAt data 0) (byteAt data 1))
        (rd16 (byteAt data 2) (byteAt data 3)) (byteAt data 4) data.length = true)
    (hcrc : crc32 (data.drop HEADER_SIZE)
        = rd32 (byteAt data 5) (byteAt data 6) (byteAt data 7) (byteAt data 8))
    (hn1 : rd16 (byteAt data 0) (byteAt data 1) ≠ 1)
    (hG : ∀ g, st.expectedGlobalCrc32 = some g →
        rd32 (byteAt data 9) (byteAt data 10) (byteAt data 11) (byteAt data 12) = g)
    (hidx : rd16 (byteAt data 0) (byteAt data 1) - 1 < st.receivedChunks.length)
    (hfilled : (slotAt st.receivedChunks (rd16 (byteAt data 0) (byteAt data 1) - 1)).isSome) :
    processReceivedChunk st now data
      = (st, ⟨[(ACK_CHUNK_RECEIVED, rd16 (byteAt data 0) (byteAt data 1))], none⟩) := by
  have hsize := (validateChunkHeader_eq_true.mp hval).2.2.2.2.2.2
  have hlt : ¬ data.length < HEADER_SIZE := by omega
  simp only [processReceivedChunk, hlt, if_false]
  rw [if_neg (by simp [hval]), if_neg (by omega), if_neg (by simp [hcrc])]
  simp only [processValidChunk]
  rw [if_neg hn1]
  rcases hE : st.expectedGlobalCrc32 with _ | g
  · simp only [dupCheckStore]
    rw [if_pos ⟨hidx, hfilled⟩]
  · have hgg := hG g hE
    simp only [hgg, ne_eq, eq_self_iff_true, not_true, reduceIte, dupCheckStore]
    rw [if_pos ⟨hidx, hfilled⟩]

/-- Witness for `duplicate_chunk_idempotent`: chunk 2 of a 3-chunk transfer
is re-delivered while its slot is already filled. -/
theorem duplicate_chunk_idempotent_witness :
    processReceivedChunk
        { receivedChunks := [some [10], some [20], none], expectedChunks := 3,
          receivedChunkCount := 2, transferInProgress := true,
          expectedGlobalCrc32 := some (crc32 [10, 20, 30]) }
        0 (packHeader 2 3 1 (crc32 [20]) (crc32 [10, 20, 30]) 3 ++ [20])
      = ({ receivedChunks := [some [10], some [20], none], expectedChunks := 3,
           receivedChunkCount := 2, transferInProgress := true,
           expectedGlobalCrc32 := some (crc32 [10, 20, 30]) },
         ⟨[(ACK_CHUNK_RECEIVED, 2)], none⟩) := by
  have h := duplicate_chunk_idempotent
    { receivedChunks := [some [10], some [20], none], expectedChunks := 3,
      receivedChunkCount := 2, transferInProgress := true,
      expectedGlobalCrc32 := some (crc32 [10, 20, 30]) }
    0 (packHeader 2 3 1 (crc32 [20]) (crc32 [10, 20, 30]) 3 ++ [20])
    (by decide) (by decide) (by decide)
    (by intro g hg; simp at hg; rw [← hg]; decide) (by decide) (by decide)
  exact h.trans (by decide)

/-! ## Claim C2: completion of a receive transfer -/

/-- C2: when storing a valid chunk makes the received count reach
`total_chunks`, the Receiver ACKs the chunk, emits `TRANSFER_COMPLETE(0)`,
concatenates the filled slots in index order and checks the global CRC-32:
on success it emits `TRANSFER_SUCCESS(0)` and hands the assembled payload to
the data callback exactly once (the step's `delivered` field), marking the
transfer inactive; on mismatch it emits `TRANSFER_FAILED(0)`, cancels the
transfer (buffers cleared, timeout counted) and delivers nothing. -/
theorem receiver_completion (st : ProtoState) (now : Int) (data : List Nat) (n gc : Nat)
    (hn : rd16 (byteAt data 0) (byteAt data 1) = n)
    (hval : validateChunkHeader n (rd16 (byteAt data 2) (byteAt data 3)) (byteAt data 4)
        data.length = true)
    (hcrc : crc32 (data.drop HEADER_SIZE)
        = rd32 (byteAt data 5) (byteAt data 6) (byteAt data 7) (byteAt data 8))
    (hgc : rd32 (byteAt data 9) (byteAt data 10) (byteAt data 11) (byteAt data 12) = gc)
    (hn1 : n ≠ 1)
    (hG : st.expectedGlobalCrc32 = some gc)
    (hslot : slotAt st.receivedChunks (n - 1) = none)
    (hle : n ≤ st.receivedChunks.length)
    (hexp : rd16 (byteAt data 2) (byteAt data 3) = st.expectedChunks)
    (hreach : st.receivedChunkCount + 1 = st.expectedChunks) :
    (crc32 (((st.receivedChunks.set (n - 1) (some (data.drop HEADER_SIZE))).filterMap id).flatten)
        = gc →
      processReceivedChunk st now data
        = ({ st with
              receivedChunks := st.receivedChunks.set (n - 1) (some (data.drop HEADER_SIZE)),
              receivedChunkCount := st.receivedChunkCount + 1,
              transferInProgress := false,
              totalDataReceived := st.totalDataReceived
                + (((st.receivedChunks.set (n - 1)
                      (some (data.drop HEADER_SIZE))).filterMap id).flatten).length,
              successfulTransfers := st.successfulTransfers + 1,
              lastChunkTime := some now },
           ⟨[(ACK_CHUNK_RECEIVED, n), (ACK_TRANSFER_COMPLETE, 0), (ACK_TRANSFER_SUCCESS, 0)],
            some (((st.receivedChunks.set (n - 1)
                (some (data.drop HEADER_SIZE))).filterMap id).flatten)⟩))
    ∧ (crc32 (((st.receivedChunks.set (n - 1) (some (data.drop HEADER_SIZE))).filterMap id).flatten)
        ≠ gc →
      processReceivedChunk st now data
        = (cancelTransfer
            { st with
                receivedChunks := st.receivedChunks.set (n - 1) (some (data.drop HEADER_SIZE)),
                receivedChunkCount := st.receivedChunkCount + 1 },
           ⟨[(ACK_CHUNK_RECEIVED, n), (ACK_TRANSFER_COMPLETE, 0), (ACK_TRANSFER_FAILED, 0)],
            none⟩)) := by
  have hsize := (validateChunkHeader_eq_true.mp hval).2.2.2.2.2.2
  have hlt : ¬ data.length < HEADER_SIZE := by omega
  constructor
  · intro hcomp
    simp only [processReceivedChunk, hlt, if_false, hn]
    rw [if_neg (by simp [hval]), if_neg (by omega), if_neg (by simp [hcrc])]
    simp only [processValidChunk]
    rw [if_neg hn1]
    simp only [hG, hgc, ne_eq, eq_self_iff_true, not_true, reduceIte]
    simp only [dupCheckStore]
    rw [if_neg (by simp [hslot])]
    simp only [storeChunk]
    rw [if_pos hle, if_pos hreach]
    rw [if_neg (by simp [hcomp, hG])]
    simp only [tailCheck, hexp]
    rw [if_neg (by simp), hG]
  · intro hcomp
    simp only [processReceivedChunk, hlt, if_false, hn]
    rw [if_neg (by simp [hval]), if_neg (by omega), if_neg (by simp [hcrc])]
    simp only [processValidChunk]
    rw [if_neg hn1]
    simp only [hG, hgc, ne_eq, eq_self_iff_true, not_true, reduceIte]
    simp only [dupCheckStore]
    rw [if_neg (by simp [hslot])]
    simp only [storeChunk]
    rw [if_pos hle, if_pos hreach]
    rw [if_pos (by rw [hG]; simp [hcomp])]
    rw [hG]

/-- Witness for `receiver_completion`: a 2-chunk transfer holding chunk 1
(payload `[10]`) completes on chunk 2 (payload `[20]`) and delivers
`[10, 20]`. -/
theorem receiver_completion_witness :
    processReceivedChunk
        { receivedChunks := [some [10], none], expectedChunks := 2,
          receivedChunkCount := 1, transferInProgress := true,
          expectedGlobalCrc32 := some (crc32 [10, 20]) }
        0 (packHeader 2 2 1 (crc32 [20]) (crc32 [10, 20]) 2 ++ [20])
      = ({ receivedChunks := [some [10], some [20]], expectedChunks := 2,
           receivedChunkCount := 2, transferInProgress := false,
           expectedGlobalCrc32 := some (crc32 [10, 20]), lastChunkTime := some 0,
           totalDataReceived := 2, successfulTransfers := 1 },
         ⟨[(ACK_CHUNK_RECEIVED, 2), (ACK_TRANSFER_COMPLETE, 0), (ACK_TRANSFER_SUCCESS, 0)],
          some [10, 20]⟩) := by
  have h := (receiver_completion
    { receivedChunks := [some [10], none], expectedChunks := 2,
      receivedChunkCount := 1, transferInProgress := true,
      expectedGlobalCrc32 := some (crc32 [10, 20]) }
    0 (packHeader 2 2 1 (crc32 [20]) (crc32 [10, 20]) 2 ++ [20]) 2 (crc32 [10, 20])
    (by decide) (by decide) (by decide) (by decide) (by decide) rfl
    (by decide) (by decide) (by decide) (by decide)).1 (by decide)
  exact h.trans (by decide)

/-! ## Claim C5: chunk count and header contents -/

/-- C5: an accepted payload is split into `ceil(|P| / CHUNK_SIZE)` chunks
(`CHUNK_SIZE = 168 = MTU − HEADER_SIZE` under the default MTU 185, and the
two inequalities pin `totalChunksOf` as exactly that ceiling); chunk `i`
(1-based `i+1` on the wire) carries the payload slice
`P[i·CHUNK_SIZE .. min((i+1)·CHUNK_SIZE, |P|)]`, and its 17-byte
little-endian header decodes to the 1-based chunk number, the common
`total_chunks`, the slice length, the slice CRC-32, the common
`global_crc32 = crc32(P)` and the common `total_data_size = |P|`. -/
theorem sender_chunking_and_headers (data : List Nat)
    (hbytes : ∀ b ∈ data, b < 256)
    (hlen : data.length ≤ MAX_TOTAL_DATA_SIZE) :
    CHUNK_SIZE = MTU_SIZE - HEADER_SIZE
    ∧ (sendFrames data).length = totalChunksOf data.length
    ∧ data.length ≤ totalChunksOf data.length * CHUNK_SIZE
    ∧ totalChunksOf data.length * CHUNK_SIZE < data.length + CHUNK_SIZE
    ∧ (∀ i, i < totalChunksOf data.length →
        unpackHeaderTuple ((sendFrames data).getD i [])
          = (i + 1, totalChunksOf data.length, (chunkSlice data i).length,
             crc32 (chunkSlice data i), crc32 data, data.length)
        ∧ ((sendFrames data).getD i []).drop HEADER_SIZE = chunkSlice data i
        ∧ chunkSlice data i = (data.drop (i * CHUNK_SIZE)).take CHUNK_SIZE) := by
  refine ⟨rfl, sendFrames_length data, ?_, ?_, ?_⟩
  · unfold totalChunksOf CHUNK_SIZE
    omega
  · unfold totalChunksOf CHUNK_SIZE
    omega
  · intro i hi
    have hT : totalChunksOf data.length ≤ 391 := by
      unfold totalChunksOf CHUNK_SIZE MAX_TOTAL_DATA_SIZE at *
      omega
    have hsle := chunkSlice_length_le data i
    have hsmem : ∀ b ∈ chunkSlice data i, b < 256 :=
      fun b hb => hbytes b (chunkSlice_mem data i hb)
    rw [sendFrames_getD data i hi]
    unfold mkChunkPacket
    refine ⟨?_, drop_packHeader _ _ _ _ _ _ _, chunkSlice_eq data i⟩
    exact unpack_packHeader _ _ _ _ _ _ _
      (by omega) (by omega) (by unfold CHUNK_SIZE at hsle; omega)
      (crc32_lt _ hsmem) (crc32_lt _ hbytes)
      (by unfold MAX_TOTAL_DATA_SIZE at hlen; omega)

/-- Witness for `sender_chunking_and_headers`: a 3-byte payload yields one
chunk carrying the whole payload with matching header fields. -/
theorem sender_chunking_and_headers_witness :
    unpackHeaderTuple ((sendFrames [7, 8, 9]).getD 0 [])
      = (1, 1, 3, crc32 [7, 8, 9], crc32 [7, 8, 9], 3) := by
  have h := ((sender_chunking_and_headers [7, 8, 9] (by decide) (by decide)).2.2.2.2
    0 (by decide)).1
  exact h.trans (by decide)

theorem midSlots_length (c : List (List Nat)) (j : Nat) :
    (midSlots c j).length = c.length := by
  simp [midSlots]

theorem midSlots_zero (c : List (List Nat)) :
    midSlots c 0 = List.replicate c.length none := by
  apply List.ext_getElem
  · simp [midSlots]
  · intro k hk1 hk2
    simp [midSlots]

theorem slotAt_midSlots (c : List (List Nat)) (j i : Nat) (h : i < c.length) :
    slotAt (midSlots c j) i = if i < j then some (c.getD i []) else none := by
  unfold slotAt midSlots
  exact getD_map_range _ _ _ _ h

theorem midSlots_set (c : List (List Nat)) (j : Nat) (_h : j < c.length) :
    (midSlots c j).set j (some (c.getD j [])) = midSlots c (j + 1) := by
  apply List.ext_getElem
  · simp [midSlots]
  · intro k hk1 hk2
    have hk : k < c.length := by simpa [midSlots] using hk2
    simp only [List.getElem_set, midSlots, List.getElem_map, List.getElem_range]
    split_ifs <;> simp_all <;> omega

theorem midSlots_full (c : List (List Nat)) : midSlots c c.length = c.map some := by
  apply List.ext_getElem
  · simp [midSlots]
  · intro k hk1 hk2
    have hk : k < c.length := by simpa [midSlots] using hk2
    simp [midSlots, hk, List.getD_eq_getElem]

theorem filterMap_id_map_some (c : List (List Nat)) : (c.map some).filterMap id = c := by
  simp

/-- Processing a sender frame reduces to the post-CRC stage: the frame
parses back to the values the sender packed, passes header validation, the
size recheck and the per-chunk CRC check. -/
theorem process_mkChunkPacket (st : ProtoState) (now : Int) (data : List Nat)
    (hbytes : ∀ b ∈ data, b < 256)
    (hlen : data.length ≤ MAX_CHUNKS_PER_TRANSFER * CHUNK_SIZE)
    (i : Nat) (hi : i < totalChunksOf data.length) :
    processReceivedChunk st now (mkChunkPacket data i)
      = processValidChunk st now (i + 1) (totalChunksOf data.length) (crc32 data)
          (chunkSlice data i) := by
  have hT365 : totalChunksOf data.length ≤ MAX_CHUNKS_PER_TRANSFER := totalChunksOf_le _ hlen
  have hspos := chunkSlice_length_pos data i hi
  have hsle := chunkSlice_length_le data i
  have hsmem : ∀ b ∈ chunkSlice data i, b < 256 :=
    fun b hb => hbytes b (chunkSlice_mem data i hb)
  have hup := unpack_packHeader (i + 1) (totalChunksOf data.length) (chunkSlice data i).length
      (crc32 (chunkSlice data i)) (crc32 data) data.length (chunkSlice data i)
      (by unfold MAX_CHUNKS_PER_TRANSFER at hT365; omega)
      (by unfold MAX_CHUNKS_PER_TRANSFER at hT365; omega)
      (by unfold CHUNK_SIZE at hsle; omega)
      (crc32_lt _ hsmem) (crc32_lt _ hbytes)
      (by unfold MAX_CHUNKS_PER_TRANSFER CHUNK_SIZE at hlen; omega)
  simp only [unpackHeaderTuple, Prod.mk.injEq] at hup
  obtain ⟨h0, h1, h2, h3, h4, -⟩ := hup
  have hvalid : validateChunkHeader (i + 1) (totalChunksOf data.length)
      (chunkSlice data i).length (HEADER_SIZE + (chunkSlice data i).length) = true := by
    rw [validateChunkHeader_eq_true]
    exact ⟨by omega, by omega, by omega, hT365, hspos, hsle, rfl⟩
  simp only [processReceivedChunk, mkChunkPacket]
  simp only [length_packHeader_append, drop_packHeader, h0, h1, h2, h3, h4]
  rw [if_neg (by omega)]
  rw [if_neg (by simp [hvalid]), if_neg (by omega), if_neg (by simp)]

/-- Storing sender chunk `i` (wire number `i+1`) from the intermediate state
with `i` chunks: the slot is still empty, the chunk is stored and ACKed, and
on the last chunk the assembly equals `data`, the global CRC-32 matches, and
the payload is delivered. -/
theorem dupStore_mid (data : List Nat) (i : Nat) (hi : i < totalChunksOf data.length)
    (lt : Option Int) :
    dupCheckStore (midRecvState data i lt) 0 (i + 1) (totalChunksOf data.length)
        (chunkSlice data i)
      = (if i + 1 = totalChunksOf data.length then finalRecvState data
         else midRecvState data (i + 1) (some 0),
         ⟨if i + 1 = totalChunksOf data.length then
            [(ACK_CHUNK_RECEIVED, i + 1), (ACK_TRANSFER_COMPLETE, 0), (ACK_TRANSFER_SUCCESS, 0)]
          else [(ACK_CHUNK_RECEIVED, i + 1)],
          if i + 1 = totalChunksOf data.length then some data else none⟩) := by
  have hlenc : (sendChunks data).length = totalChunksOf data.length := sendChunks_length data
  have hic : i < (sendChunks data).length := by omega
  have hempty : slotAt (midSlots (sendChunks data) i) i = none := by
    rw [slotAt_midSlots _ _ _ hic]
    simp
  have hset : (midSlots (sendChunks data) i).set i (some (chunkSlice data i))
      = midSlots (sendChunks data) (i + 1) := by
    rw [← sendChunks_getD data i hi]
    exact midSlots_set _ _ hic
  simp only [dupCheckStore, midRecvState, Nat.add_sub_cancel]
  rw [if_neg (by simp [hempty])]
  simp only [storeChunk, Nat.add_sub_cancel]
  rw [if_pos (by rw [midSlots_length]; omega)]
  simp only [hset]
  by_cases hlast : i + 1 = totalChunksOf data.length
  · simp only [hlast, if_pos rfl, reduceIte]
    have hfull : midSlots (sendChunks data) (totalChunksOf data.length)
        = (sendChunks data).map some := by
      rw [← hlenc]
      exact midSlots_full _
    rw [if_neg (by
      simp only [hfull, filterMap_id_map_some, sendChunks_flatten]
      simp)]
    simp only [tailCheck]
    rw [if_neg (by simp)]
    simp only [hfull, filterMap_id_map_some, sendChunks_flatten]
    unfold finalRecvState midRecvState
    simp only [hlenc, hfull, Nat.zero_add]
  · simp only [hlast, if_false, reduceIte]
    simp only [tailCheck]
    rw [if_neg (by simp)]

/-- Step lemma for chunks after the first: processing sender frame `i`
(`1 ≤ i`) from the intermediate state advances it, delivering the payload on
the last frame. -/
theorem step_later (data : List Nat) (hbytes : ∀ b ∈ data, b < 256)
    (hlen : data.length ≤ MAX_CHUNKS_PER_TRANSFER * CHUNK_SIZE)
    (i : Nat) (hi1 : 1 ≤ i) (hi : i < totalChunksOf data.length) (lt : Option Int) :
    processReceivedChunk (midRecvState data i lt) 0 (mkChunkPacket data i)
      = (if i + 1 = totalChunksOf data.length then finalRecvState data
         else midRecvState data (i + 1) (some 0),
         ⟨if i + 1 = totalChunksOf data.length then
            [(ACK_CHUNK_RECEIVED, i + 1), (ACK_TRANSFER_COMPLETE, 0), (ACK_TRANSFER_SUCCESS, 0)]
          else [(ACK_CHUNK_RECEIVED, i + 1)],
          if i + 1 = totalChunksOf data.length then some data else none⟩) := by
  rw [process_mkChunkPacket _ _ data hbytes hlen i hi]
  have hE : (midRecvState data i lt).expectedGlobalCrc32 = some (crc32 data) := rfl
  simp only [processValidChunk]
  rw [if_neg (by omega)]
  simp only [hE, ne_eq, eq_self_iff_true, not_true, reduceIte]
  exact dupStore_mid data i hi lt

/-- Step lemma for the first frame: chunk 1 initializes the reception from
the fresh state and is stored (and, for a single-chunk payload, already
completes the transfer). -/
theorem step_first (data : List Nat) (hbytes : ∀ b ∈ data, b < 256)
    (hlen : data.length ≤ MAX_CHUNKS_PER_TRANSFER * CHUNK_SIZE)
    (h0 : 0 < totalChunksOf data.length) :
    processReceivedChunk initialState 0 (mkChunkPacket data 0)
      = (if 0 + 1 = totalChunksOf data.length then finalRecvState data
         else midRecvState data (0 + 1) (some 0),
         ⟨if 0 + 1 = totalChunksOf data.length then
            [(ACK_CHUNK_RECEIVED, 0 + 1), (ACK_TRANSFER_COMPLETE, 0), (ACK_TRANSFER_SUCCESS, 0)]
          else [(ACK_CHUNK_RECEIVED, 0 + 1)],
          if 0 + 1 = totalChunksOf data.length then some data else none⟩) := by
  rw [process_mkChunkPacket _ _ data hbytes hlen 0 h0]
  have hrepl : List.replicate (totalChunksOf data.length) (none : Option (List Nat))
      = midSlots (sendChunks data) 0 := by
    rw [midSlots_zero, sendChunks_length]
  simp only [processValidChunk, reduceIte]
  have hE : initialState.expectedGlobalCrc32 = none := rfl
  simp only [hE]
  simp only [hrepl]
  exact dupStore_mid data 0 h0 none

/-- Running the remaining sender frames from the intermediate state after
`i ≥ 1` chunks completes the transfer and delivers exactly `data`. -/
theorem run_from (data : List Nat) (hbytes : ∀ b ∈ data, b < 256)
    (hlen : data.length ≤ MAX_CHUNKS_PER_TRANSFER * CHUNK_SIZE) :
    ∀ (d i : Nat), 1 ≤ i → i < totalChunksOf data.length →
      totalChunksOf data.length - i = d + 1 →
      runReceiver (midRecvState data i (some 0)) 0
          ((List.range (totalChunksOf data.length - i)).map
            (fun k => mkChunkPacket data (i + k)))
        = (finalRecvState data, [data]) := by
  intro d
  induction d with
  | zero =>
      intro i hi1 hi hd
      rw [hd]
      have hframe : (List.range 1).map (fun k => mkChunkPacket data (i + k))
          = [mkChunkPacket data i] := by
        rw [List.range_succ_eq_map]
        simp
      rw [hframe]
      have hlong : ¬ (mkChunkPacket data i).length < HEADER_SIZE := by
        rw [mkChunkPacket_length]
        omega
      simp only [runReceiver, dataNotificationHandler, hlong, if_false]
      rw [step_later data hbytes hlen i hi1 hi (some 0)]
      rw [if_pos (by omega), if_pos (by omega), if_pos (by omega)]
      simp [runReceiver]
  | succ d ih =>
      intro i hi1 hi hd
      rw [hd]
      rw [List.range_succ_eq_map, List.map_cons, List.map_map]
      have htail : (List.range (d + 1)).map ((fun k => mkChunkPacket data (i + k)) ∘ Nat.succ)
          = (List.range (totalChunksOf data.length - (i + 1))).map
              (fun k => mkChunkPacket data ((i + 1) + k)) := by
        have hd1 : totalChunksOf data.length - (i + 1) = d + 1 := by omega
        rw [hd1]
        apply List.map_congr_left
        intro a _
        simp only [Function.comp_apply]
        congr 1
        omega
      rw [htail]
      have hlong : ¬ (mkChunkPacket data (i + 0)).length < HEADER_SIZE := by
        rw [mkChunkPacket_length]
        omega
      simp only [runReceiver, dataNotificationHandler, hlong, if_false]
      have hstep := step_later data hbytes hlen i hi1 hi (some 0)
      rw [show i + 0 = i from rfl, hstep]
      rw [if_neg (by omega), if_neg (by omega), if_neg (by omega)]
      rw [ih (i + 1) (by omega) (by omega) (by omega)]
      simp

/-- C1 counterexample: the payload length 61321 lies inside the claim's
range `0 < |P| ≤ MAX_TOTAL_DATA_SIZE = 65536`, yet the sender computes 366
chunks, which violates the invariant
`total_chunks ≤ MAX_CHUNKS_PER_TRANSFER = 365` the claim asserts — and the
receiver's header validation rejects every chunk of such a transfer (shown
here for chunk 1 with a full-size 168-byte slice), so nothing is ever
stored or delivered. -/
theorem roundtrip_range_counterexample :
    0 < (61321 : Nat) ∧ (61321 : Nat) ≤ MAX_TOTAL_DATA_SIZE
    ∧ totalChunksOf 61321 = 366
    ∧ ¬ totalChunksOf 61321 ≤ MAX_CHUNKS_PER_TRANSFER
    ∧ validateChunkHeader 1 (totalChunksOf 61321) 168 (HEADER_SIZE + 168) = false := by
  decide

/-- C1 amended: for every payload `P` of bytes with
`0 < |P| ≤ MAX_CHUNKS_PER_TRANSFER · CHUNK_SIZE = 61320` — equivalently,
whose chunk count stays within `MAX_CHUNKS_PER_TRANSFER` — a Sender paired
with a Receiver over an in-memory lossless link (the receiver consumes the
sender's frames in order from the fresh state) delivers exactly `P` to the
data callback, once, and `crc32(delivered) = crc32(P)`.  For
`61320 < |P| ≤ 65536` the sender still emits the frames but their chunk
count exceeds 365 and the receiver's header validation rejects them (see
the counterexample). -/
theorem roundtrip_delivers_payload (data : List Nat)
    (hpos : 0 < data.length)
    (hlen : data.length ≤ MAX_CHUNKS_PER_TRANSFER * CHUNK_SIZE)
    (hbytes : ∀ b ∈ data, b < 256) :
    totalChunksOf data.length ≤ MAX_CHUNKS_PER_TRANSFER
    ∧ (runReceiver initialState 0 (sendFrames data)).2 = [data]
    ∧ ∀ d ∈ (runReceiver initialState 0 (sendFrames data)).2, crc32 d = crc32 data := by
  have hT1 : 1 ≤ totalChunksOf data.length := by
    unfold totalChunksOf CHUNK_SIZE
    omega
  have hrun : (runReceiver initialState 0 (sendFrames data)) = (finalRecvState data, [data]) := by
    have hsplit : totalChunksOf data.length = (totalChunksOf data.length - 1) + 1 := by omega
    unfold sendFrames
    rw [hsplit, List.range_succ_eq_map, List.map_cons, List.map_map]
    have hlong : ¬ (mkChunkPacket data 0).length < HEADER_SIZE := by
      rw [mkChunkPacket_length]
      omega
    simp only [runReceiver, dataNotificationHandler, hlong, if_false]
    rw [step_first data hbytes hlen (by omega)]
    by_cases hone : totalChunksOf data.length = 1
    · rw [if_pos (by omega), if_pos (by omega), if_pos (by omega)]
      have : totalChunksOf data.length - 1 = 0 := by omega
      rw [this]
      simp [runReceiver]
    · rw [if_neg (by omega), if_neg (by omega), if_neg (by omega)]
      have htail : (List.range (totalChunksOf data.length - 1)).map
            ((mkChunkPacket data) ∘ Nat.succ)
          = (List.range (totalChunksOf data.length - 1)).map
              (fun k => mkChunkPacket data (1 + k)) := by
        apply List.map_congr_left
        intro a _
        simp only [Function.comp_apply]
        congr 1
        omega
      rw [htail]
      have hfrom := run_from data hbytes hlen (totalChunksOf data.length - 2) 1
        (by omega) (by omega) (by omega)
      simp only [runReceiver] at *
      rw [hfrom]
      simp
  refine ⟨totalChunksOf_le _ hlen, ?_, ?_⟩
  · rw [hrun]
  · rw [hrun]
    simp

/-- Witness for `roundtrip_delivers_payload`: the payload `[1, 2, 3]` is
delivered exactly once and intact. -/
theorem roundtrip_delivers_payload_witness :
    (runReceiver initialState 0 (sendFrames [1, 2, 3])).2 = [[1, 2, 3]] :=
  (roundtrip_delivers_payload [1, 2, 3] (by decide) (by decide) (by decide)).2.1

end ChunkedBLE
